import Mathlib

/-!
Shallow embedding of the RAG core of the call-center analytics repository
(`src/rag_handler.py`, `src/unified_ai_agent.py`).

Python strings are Lean `String`; `str.lower()` is modelled character-wise
(ASCII) by `pyLower`; `pat in hay` substring tests by `strContains`;
Python floats by `ℚ` (the claims under verification are algebraic, not
about rounding); Python exceptions (`KeyError`, `FileNotFoundError`) by
`Except String`; `dict` / `defaultdict` objects by insertion-ordered
association lists, with `defaultdict.__getitem__`'s insert-on-miss
semantics modelled explicitly where the code relies on it.
-/

namespace CallCenterSpec

/-- Substring search on character lists: `listContains hay pat` is true iff
`pat` occurs contiguously in `hay` (the semantics of Python's `pat in hay`). -/
def listContains : List Char → List Char → Bool
  | [], pat => pat.isEmpty
  | c :: t, pat => pat.isPrefixOf (c :: t) || listContains t pat

/-- Python's `pat in hay` on strings. -/
def strContains (hay pat : String) : Bool :=
  listContains hay.data pat.data

/-- Python's `str.lower()` (character-wise; all keywords in this code are
ASCII, where `Char.toLower` agrees with Python). -/
def pyLower (s : String) : String :=
  ⟨s.data.map Char.toLower⟩

/-- Python's `' '.join(xs)`. -/
def joinSpace : List String → String
  | [] => ""
  | [s] => s
  | s :: t => s ++ " " ++ joinSpace t

/-- Python's `xs[-n:]`. -/
def lastN (n : Nat) (xs : List α) : List α :=
  xs.drop (xs.length - n)

/-- One raw chat record, as consumed by `_group_conversations`. The two
fields whose absence the spec discusses are `Option`; accessing a missing
one models Python's `KeyError`. Fields not used by any verified claim
(`start_date`, `end_date`, `phone_number`) are omitted. -/
structure RawMsg where
  contact_id : Option String
  message_number : Nat
  chat_text : String
  chat_user_type : Option String
  chat_time_shift : Int
deriving DecidableEq

/-- One entry of a conversation's `messages` list, as built by
`CallCenterRAG._group_conversations` (which stores `message_number`;
the unified agent's version stores the same minus that field). -/
structure Msg where
  text : String
  user_type : String
  timestamp : Int
  message_number : Nat
deriving DecidableEq

/-- The per-`contact_id` record built by `_group_conversations`
(`metadata`/`duration` omitted: no verified claim concerns them). -/
structure Conversation where
  messages : List Msg
  customer_messages : List String
  agent_messages : List String
  resolution_achieved : Bool
deriving DecidableEq

/-- The `defaultdict` default value for a conversation. -/
def emptyConv : Conversation :=
  { messages := [], customer_messages := [], agent_messages := []
    resolution_achieved := false }

/-- The loop body of `_group_conversations` applied to one record whose
`contact_id` / `chat_user_type` were successfully read as `ut`. -/
def addMessage (c : Conversation) (m : RawMsg) (ut : String) : Conversation :=
  { messages := c.messages ++
      [{ text := m.chat_text, user_type := ut, timestamp := m.chat_time_shift
         message_number := m.message_number }]
    customer_messages :=
      if ut = "customer" then c.customer_messages ++ [m.chat_text]
      else c.customer_messages
    agent_messages :=
      if ut = "customer" then c.agent_messages
      else c.agent_messages ++ [m.chat_text]
    resolution_achieved := c.resolution_achieved }

/-- Insertion-ordered dict lookup. -/
def alookup : List (String × α) → String → Option α
  | [], _ => none
  | (k, v) :: t, key => if k = key then some v else alookup t key

/-- `defaultdict` access-and-update: apply `f` to the entry for `cid`,
inserting `f emptyConv` at the end (Python dict insertion order) when
`cid` is not yet a key. -/
def updateConv : List (String × Conversation) → String →
    (Conversation → Conversation) → List (String × Conversation)
  | [], cid, f => [(cid, f emptyConv)]
  | (k, c) :: t, cid, f =>
      if k = cid then (k, f c) :: t else (k, c) :: updateConv t cid f

/-- The message loop of `_group_conversations`. A record with no
`contact_id` or no `chat_user_type` raises `KeyError` (modelled as
`Except.error`), aborting the whole batch. -/
def groupFold : List (String × Conversation) → List RawMsg →
    Except String (List (String × Conversation))
  | acc, [] => .ok acc
  | acc, m :: rest =>
      match m.contact_id with
      | none => .error "KeyError: contact_id"
      | some cid =>
          match m.chat_user_type with
          | none => .error "KeyError: chat_user_type"
          | some ut => groupFold (updateConv acc cid (fun c => addMessage c m ut)) rest

/-- `CallCenterRAG._detect_resolution`'s keyword list. -/
def rag_resolution_indicators : List String :=
  [ "resolved", "fixed", "sorted", "done", "complete",
    "thank you", "thanks", "perfect", "great", "excellent" ]

/-- `CallCenterRAG._detect_resolution`: concatenate the lowercased texts of
the last 3 messages and test every indicator for substring occurrence.
There is no minimum-length check in this version. -/
def rag_detect_resolution (messages : List Msg) : Bool :=
  let last_messages := joinSpace ((lastN 3 messages).map (fun m => pyLower m.text))
  rag_resolution_indicators.any (fun ind => strContains last_messages ind)

/-- `UnifiedCallCenterAI._detect_resolution`'s keyword list. -/
def unified_resolution_indicators : List String :=
  [ "thank you", "thanks", "resolved", "fixed", "sorted",
    "perfect", "great", "excellent", "helped" ]

/-- `UnifiedCallCenterAI._detect_resolution`: returns `false` outright for
conversations with fewer than 2 messages, otherwise tests the keyword list
against the lowercased concatenation of the last 3 messages. -/
def unified_detect_resolution (messages : List Msg) : Bool :=
  if messages.length < 2 then false
  else
    let last_messages := joinSpace ((lastN 3 messages).map (fun m => pyLower m.text))
    unified_resolution_indicators.any (fun ind => strContains last_messages ind)

/-- The final pass of `_group_conversations`:
`conv['resolution_achieved'] = self._detect_resolution(conv['messages'])`. -/
def setResolution (c : Conversation) : Conversation :=
  { c with resolution_achieved := rag_detect_resolution c.messages }

/-- `CallCenterRAG._group_conversations`: run the message loop from the
empty dict, then set `resolution_achieved` on every conversation. -/
def group_conversations (chat_data : List RawMsg) :
    Except String (List (String × Conversation)) :=
  (groupFold [] chat_data).map (fun cs => cs.map (fun p => (p.1, setResolution p.2)))

/-- The ordered category table of `UnifiedCallCenterAI._detect_issue_category`
(Python dicts preserve insertion order, so this order is the precedence). -/
def unified_issue_categories : List (String × List String) :=
  [ ( "billing", [ "bill", "charge", "payment", "cost", "fee" ]),
    ( "technical", [ "not working", "broken", "problem", "error" ]),
    ( "account", [ "account", "login", "password", "access" ]),
    ( "service", [ "cancel", "upgrade", "plan", "change" ]),
    ( "roaming", [ "roaming", "overseas", "international" ]),
    ( "data", [ "data", "internet", "wifi", "slow" ]) ]

/-- The ordered category table used inline by
`CallCenterRAG._extract_issue_patterns`. -/
def rag_issue_categories : List (String × List String) :=
  [ ( "billing", [ "bill", "charge", "payment", "cost", "price", "fee" ]),
    ( "technical", [ "not working", "broken", "issue", "problem", "error", "bug" ]),
    ( "account", [ "account", "login", "password", "access", "profile" ]),
    ( "service", [ "cancel", "upgrade", "downgrade", "change", "plan" ]),
    ( "roaming", [ "roaming", "overseas", "international", "abroad" ]),
    ( "data", [ "data", "internet", "wifi", "connection", "slow" ]) ]

/-- First-match classification over an ordered category table: the `for`
loop with early `return` shared by both classifiers. -/
def firstMatchCategory (table : List (String × List String)) (text_lower : String) : String :=
  match table.find? (fun ck => ck.2.any (fun kw => strContains text_lower kw)) with
  | some ck => ck.1
  | none => "other"

/-- `UnifiedCallCenterAI._detect_issue_category`. -/
def detect_issue_category (text : String) : String :=
  firstMatchCategory unified_issue_categories (pyLower text)

/-- The categorization step of `CallCenterRAG._extract_issue_patterns`
applied to a first customer message (which that code lowercases first). -/
def rag_categorize (text : String) : String :=
  firstMatchCategory rag_issue_categories (pyLower text)

/-- One element of the `similar_cases` list consumed by
`CallCenterRAG._calculate_confidence` (`case.get` keys actually read). -/
structure SimilarCase where
  similarity_score : ℚ
  resolved : Bool
deriving DecidableEq

/-- The loop body of `_calculate_confidence`: accumulate
`(total_score, weight_sum)`. -/
def confAccum (acc : ℚ × ℚ) (case : SimilarCase) : ℚ × ℚ :=
  let similarity := case.similarity_score
  let resolved_bonus : ℚ := if case.resolved then 2/10 else 0
  (acc.1 + (similarity + resolved_bonus) * similarity, acc.2 + similarity)

/-- `CallCenterRAG._calculate_confidence`: `0.0` for an empty list, else
`total_score / weight_sum` when `weight_sum > 0`, else `0.0`. -/
def calculate_confidence (similar_cases : List SimilarCase) : ℚ :=
  if similar_cases.isEmpty then 0
  else
    let tw := similar_cases.foldl confAccum (0, 0)
    if tw.2 > 0 then tw.1 / tw.2 else 0

/-- `Σ similarity_i` over a case list (the spec's weight sum). -/
def simSum (cases : List SimilarCase) : ℚ :=
  (cases.map (fun c => c.similarity_score)).sum

/-- `Σ (similarity_i + bonus_i) * similarity_i` over a case list. -/
def scoreSum (cases : List SimilarCase) : ℚ :=
  (cases.map (fun c =>
    (c.similarity_score + (if c.resolved then 2/10 else 0)) * c.similarity_score)).sum

/-- Modelled from the spec's words (§4.7 confidence formula), for comparison
with `calculate_confidence`: `Σ(similarity_i + bonus_i) * similarity_i /
Σ similarity_i` on a non-empty list, `0.0` on the empty list. -/
def specConfidence (cases : List SimilarCase) : ℚ :=
  if cases.isEmpty then 0 else scoreSum cases / simSum cases

/-- One entry of `conversation_metadata` (one row of the vector index). -/
structure ConvMeta where
  contact_id : String
  resolved : Bool
  duration : ℚ
  full_conversation : List Msg
deriving DecidableEq

/-- One `issue_patterns` record. -/
structure IssuePattern where
  contact_id : String
  issue_text : String
  resolved : Bool
  duration : ℚ
deriving DecidableEq

/-- One `resolution_templates` record. -/
structure ResolutionTemplate where
  contact_id : String
  steps : List String
  duration : ℚ
deriving DecidableEq

/-- The mutable knowledge-base attributes of the RAG object. The vector
index is its row list (vectors stored post-L2-normalization; normalization
itself is real-valued and is absorbed into the abstract embedding
collaborator, which no verified claim inspects). -/
structure KBState where
  ml_ready : Bool
  conversation_index : Option (List (List ℚ))
  conversation_metadata : List ConvMeta
  issue_patterns : List (String × List IssuePattern)
  resolution_templates : List (String × List ResolutionTemplate)
deriving DecidableEq

/-- Inner product of two embedding vectors. -/
def dotProduct (u v : List ℚ) : ℚ :=
  (List.zipWith (fun a b => a * b) u v).sum

/-- `faiss.IndexFlatIP.search` on one query: score every row, sort by
descending score (stable, so ties keep insertion order), take `k`, and pad
missing slots with index `-1` as faiss does. -/
def faissSearch (rows : List (List ℚ)) (q : List ℚ) (k : Nat) : List (ℚ × Int) :=
  let scored := rows.enum.map (fun p => (dotProduct q p.2, (p.1 : Int)))
  let ranked := scored.mergeSort (fun a b => a.1 ≥ b.1)
  ranked.take k ++ List.replicate (k - rows.length) ((0 : ℚ), (-1 : Int))

/-- A result of `CallCenterRAG.find_similar_conversations`: the copied
metadata dict plus `similarity_score` and `rank`. -/
structure RagSearchResult where
  meta : ConvMeta
  similarity_score : ℚ
  rank : Nat
deriving DecidableEq

/-- A result of `UnifiedCallCenterAI.find_similar_conversations` (no rank). -/
structure USearchResult where
  meta : ConvMeta
  similarity_score : ℚ
deriving DecidableEq

/-- `CallCenterRAG.find_similar_conversations`, state-passing. Returns the
(unchanged) state and the result list; unbuilt index → `[]`. The `embed`
argument is the external embedding collaborator (§6 of the spec). -/
def rag_find_similar (embed : String → List ℚ) (st : KBState)
    (query : String) (top_k : Nat) : KBState × List RagSearchResult :=
  match st.conversation_index with
  | none => (st, [])
  | some rows =>
      let hits := faissSearch rows (embed query) top_k
      let results := hits.enum.filterMap (fun p =>
        if p.2.2 = -1 then none
        else (st.conversation_metadata.get? p.2.2.toNat).map (fun meta =>
          { meta := meta, similarity_score := p.2.1, rank := p.1 + 1 }))
      (st, results)

/-- `UnifiedCallCenterAI.find_similar_conversations`: additionally gated on
`ml_ready`. -/
def unified_find_similar (embed : String → List ℚ) (st : KBState)
    (query : String) (top_k : Nat) : KBState × List USearchResult :=
  match st.ml_ready, st.conversation_index with
  | false, _ => (st, [])
  | true, none => (st, [])
  | true, some rows =>
      let hits := faissSearch rows (embed query) top_k
      let results := hits.filterMap (fun si =>
        if si.2 = -1 then none
        else (st.conversation_metadata.get? si.2.toNat).map (fun meta =>
          { meta := meta, similarity_score := si.1 }))
      (st, results)

/-- The per-category statistics record of `get_issue_insights` (the
`common_phrases` field of the single-category RAG branch is omitted: no
verified claim concerns it, and computing it reads the same state). -/
structure Insight where
  total_cases : Nat
  resolved_cases : Nat
  resolution_rate : ℚ
  avg_duration_seconds : ℚ
deriving DecidableEq

/-- The statistics computed for one pattern list (`np.mean` modelled as
rational mean; division by zero in `ℚ` is `0`, matching the code's guards
on the paths the claims exercise). -/
def insightOf (patterns : List IssuePattern) : Insight :=
  let total := patterns.length
  let resolved := (patterns.filter (fun p => p.resolved)).length
  { total_cases := total
    resolved_cases := resolved
    resolution_rate := if total > 0 then (resolved : ℚ) / (total : ℚ) else 0
    avg_duration_seconds :=
      if patterns.isEmpty then 0
      else (patterns.map (fun p => p.duration)).sum / (patterns.length : ℚ) }

/-- `CallCenterRAG.get_issue_insights`: a known category yields its single
entry; an unknown or omitted category yields overall insights for every
category. Reads are guarded by membership tests, so the state is returned
unchanged. -/
def rag_get_issue_insights (st : KBState) (category : Option String) :
    KBState × List (String × Insight) :=
  match category with
  | some cat =>
      match alookup st.issue_patterns cat with
      | some patterns => (st, [(cat, insightOf patterns)])
      | none => (st, st.issue_patterns.map (fun p => (p.1, insightOf p.2)))
  | none => (st, st.issue_patterns.map (fun p => (p.1, insightOf p.2)))

/-- `UnifiedCallCenterAI.get_issue_insights`: `patterns_to_analyze =
{category: self.issue_patterns[category]} if category else
self.issue_patterns`. The subscript on the (post-build) `defaultdict`
INSERTS an empty list when `category` is absent — the returned state
reflects that; categories with empty pattern lists are skipped by the
`if patterns:` guard. -/
def unified_get_issue_insights (st : KBState) (category : Option String) :
    KBState × List (String × Insight) :=
  match category with
  | some cat =>
      let lookedUp := alookup st.issue_patterns cat
      let patterns := lookedUp.getD []
      let st' :=
        match lookedUp with
        | some _ => st
        | none => { st with issue_patterns := st.issue_patterns ++ [(cat, [])] }
      (st', if patterns.isEmpty then [] else [(cat, insightOf patterns)])
  | none =>
      (st, st.issue_patterns.filterMap (fun p =>
        if p.2.isEmpty then none else some (p.1, insightOf p.2)))

/-- One resolution suggestion of the facade (template-derived or
similar-case-derived). -/
inductive Suggestion where
  | template (category : String) (steps : List String) : Suggestion
  | similar_case (similarity_score : ℚ) (agent_responses : List String) : Suggestion
deriving DecidableEq

/-- `UnifiedCallCenterAI.get_resolution_suggestions`: up to 2 templates for
a known category, then similar resolved cases (top 3) that have agent
messages. The template read is guarded by `in`; the state is threaded
through `find_similar_conversations`. -/
def unified_get_resolution_suggestions (embed : String → List ℚ) (st : KBState)
    (issue_text : String) (category : Option String) : KBState × List Suggestion :=
  let templateSuggs :=
    match category with
    | some cat =>
        match alookup st.resolution_templates cat with
        | some ts => (ts.take 2).map (fun t => Suggestion.template cat t.steps)
        | none => []
    | none => []
  let sr := unified_find_similar embed st issue_text 3
  let caseSuggs := sr.2.filterMap (fun conv =>
    if conv.meta.resolved then
      let agent_messages := (conv.meta.full_conversation.filter
        (fun m => m.user_type = "agent")).map (fun m => m.text)
      if agent_messages.isEmpty then none
      else some (Suggestion.similar_case conv.similarity_score agent_messages)
    else none)
  (sr.1, templateSuggs ++ caseSuggs)

/-- `CallCenterRAG.get_resolution_suggestions`: up to 3 templates for a
known category, then up to 3 resolved cases among the top 10 similar. -/
def rag_get_resolution_suggestions (embed : String → List ℚ) (st : KBState)
    (issue_text : String) (category : Option String) : KBState × List Suggestion :=
  let sr := rag_find_similar embed st issue_text 10
  let resolved_convs := sr.2.filter (fun conv => conv.meta.resolved)
  let templateSuggs :=
    match category with
    | some cat =>
        match alookup st.resolution_templates cat with
        | some ts => (ts.take 3).map (fun t => Suggestion.template cat t.steps)
        | none => []
    | none => []
  let caseSuggs := (resolved_convs.take 3).filterMap (fun conv =>
    let agent_messages := (conv.meta.full_conversation.filter
      (fun m => m.user_type = "agent")).map (fun m => m.text)
    if agent_messages.isEmpty then none
    else some (Suggestion.similar_case conv.similarity_score agent_messages))
  (sr.1, templateSuggs ++ caseSuggs)

/-- The contents of the structured (pickle) half of a knowledge-base
snapshot, as written by `save_knowledge_base` (the
`agent_performance_data` entry is omitted: no verified claim reads it). -/
structure SnapshotData where
  issue_patterns : List (String × List IssuePattern)
  resolution_templates : List (String × List ResolutionTemplate)
  conversation_metadata : List ConvMeta
deriving DecidableEq

/-- `CallCenterRAG.load_knowledge_base`: the two on-disk artifacts are the
arguments (`none` = file absent). A missing/unreadable pickle raises
(re-raised by the handler, hence `Except.error`); a missing faiss index
file is merely skipped by the `os.path.exists` guard — the metadata is
installed and `conversation_index` keeps its prior value. -/
def load_knowledge_base (st : KBState) (pkl : Option SnapshotData)
    (index_file : Option (List (List ℚ))) : Except String KBState :=
  match pkl with
  | none => .error "FileNotFoundError"
  | some kb =>
      let st1 := { st with
        issue_patterns := kb.issue_patterns
        resolution_templates := kb.resolution_templates
        conversation_metadata := kb.conversation_metadata }
      match index_file with
      | some idx => .ok { st1 with conversation_index := some idx }
      | none => .ok st1

/-! ### Confidence score: closed form of the accumulation loop -/

theorem foldl_confAccum (cases : List SimilarCase) :
    ∀ t0 w0 : ℚ, cases.foldl confAccum (t0, w0) = (t0 + scoreSum cases, w0 + simSum cases) := by
  induction cases with
  | nil => intro t0 w0; simp [scoreSum, simSum]
  | cons c rest ih =>
      intro t0 w0
      simp only [List.foldl_cons, confAccum, scoreSum, simSum, List.map_cons, List.sum_cons]
      rw [ih]
      refine Prod.ext ?_ ?_ <;> simp [scoreSum, simSum] <;> ring

/-- `_calculate_confidence` in closed form. -/
theorem calculate_confidence_eq (cases : List SimilarCase) :
    calculate_confidence cases =
      if cases.isEmpty then 0
      else if 0 < simSum cases then scoreSum cases / simSum cases else 0 := by
  unfold calculate_confidence
  rcases cases with _ | ⟨c, rest⟩
  · rfl
  · simp only [List.isEmpty_cons, Bool.false_eq_true, if_false]
    rw [foldl_confAccum]
    simp [gt_iff_lt]

theorem sum_bounds (cases : List SimilarCase)
    (h : ∀ c ∈ cases, 0 ≤ c.similarity_score ∧ c.similarity_score ≤ 1) :
    0 ≤ simSum cases ∧ 0 ≤ scoreSum cases ∧ scoreSum cases ≤ 6/5 * simSum cases := by
  induction cases with
  | nil => simp [simSum, scoreSum]
  | cons c rest ih =>
      have hc := h c (List.mem_cons_self c rest)
      have hrest := ih (fun x hx => h x (List.mem_cons_of_mem c hx))
      have hb : (0 : ℚ) ≤ (if c.resolved then 2/10 else 0) ∧
          (if c.resolved then (2 : ℚ)/10 else 0) ≤ 2/10 := by
        split <;> norm_num
      simp only [simSum, scoreSum, List.map_cons, List.sum_cons] at *
      refine ⟨by linarith [hc.1, hrest.1], ?_, ?_⟩
      · have : 0 ≤ (c.similarity_score + (if c.resolved then 2/10 else 0)) * c.similarity_score :=
          mul_nonneg (by linarith [hc.1, hb.1]) hc.1
        linarith [hrest.2.1]
      · have hterm : (c.similarity_score + (if c.resolved then 2/10 else 0)) * c.similarity_score ≤
            6/5 * c.similarity_score := by
          apply mul_le_mul_of_nonneg_right _ hc.1
          linarith [hc.2, hb.2]
        linarith [hrest.2.2]

/-! ### Claim C4: confidence formula -/

/-- C4, counterexample: the claim says that for EVERY non-empty list the
confidence equals `Σ(sim_i + bonus_i) * sim_i / Σ sim_i`. On the single
resolved case with similarity `-1` (within the spec's stated range
`[-1, 1]`) the code returns `0.0` because its `weight_sum > 0` guard
fails, while the spec formula evaluates to `-4/5`. -/
theorem c4_confidence_formula_counterexample :
    calculate_confidence [{ similarity_score := -1, resolved := true }] = 0 ∧
    specConfidence [{ similarity_score := -1, resolved := true }] = -(4/5) ∧
    (0 : ℚ) ≠ -(4/5) := by
  refine ⟨?_, ?_, by norm_num⟩
  · rw [calculate_confidence_eq]; simp [simSum]
  · unfold specConfidence scoreSum simSum; norm_num

/-- C4 (amended): `_calculate_confidence` returns `0.0` on the empty list,
equals the spec formula `Σ(sim_i + bonus_i) * sim_i / Σ sim_i` whenever
`Σ sim_i > 0`, and returns `0.0` (not the formula) whenever the list is
non-empty with `Σ sim_i ≤ 0`. -/
theorem c4_confidence_formula_amended :
    calculate_confidence [] = 0 ∧
    (∀ cases : List SimilarCase, 0 < simSum cases →
      calculate_confidence cases = specConfidence cases) ∧
    (∀ cases : List SimilarCase, cases ≠ [] → simSum cases ≤ 0 →
      calculate_confidence cases = 0) := by
  refine ⟨rfl, ?_, ?_⟩
  · intro cases hpos
    rcases cases with _ | ⟨c, rest⟩
    · simp [simSum] at hpos
    · rw [calculate_confidence_eq]
      simp only [List.isEmpty_cons, Bool.false_eq_true, if_false, if_pos hpos]
      unfold specConfidence
      simp
  · intro cases hne hle
    rw [calculate_confidence_eq]
    rcases cases with _ | ⟨c, rest⟩
    · simp at hne
    · simp only [List.isEmpty_cons, Bool.false_eq_true, if_false]
      rw [if_neg (by linarith)]

/-- C4 witness: the amended theorem applied at the concrete one-case list
with similarity `1/2`, resolved. -/
theorem c4_confidence_formula_witness :
    calculate_confidence [{ similarity_score := 1/2, resolved := true }] =
      specConfidence [{ similarity_score := 1/2, resolved := true }] :=
  c4_confidence_formula_amended.2.1 [{ similarity_score := 1/2, resolved := true }]
    (by unfold simSum; norm_num)

/-! ### Claim C5: confidence bounds -/

/-- C5, counterexample: with similarities `1` (resolved) and `-1/2` (not
resolved) — both within the claim's hypothesis range `[-1, 1]` — the
confidence evaluates to `29/10 = 2.9`, outside `[0, 1.2]`. -/
theorem c5_confidence_bounds_counterexample :
    calculate_confidence
      [{ similarity_score := 1, resolved := true },
       { similarity_score := -(1/2), resolved := false }] = 29/10 ∧
    (-1 : ℚ) ≤ 1 ∧ (1 : ℚ) ≤ 1 ∧ (-1 : ℚ) ≤ -(1/2) ∧ (-(1/2) : ℚ) ≤ 1 ∧
    ¬ ((29 : ℚ)/10 ≤ 12/10) := by
  refine ⟨?_, by norm_num, by norm_num, by norm_num, by norm_num, by norm_num⟩
  rw [calculate_confidence_eq]
  unfold simSum scoreSum
  norm_num

/-- C5 (amended): the bound `confidence ∈ [0, 1.2]` holds under the
strengthened hypothesis that every similarity score lies in `[0, 1]`
(non-negative); with scores merely in `[-1, 1]` it fails. -/
theorem c5_confidence_bounds_amended (cases : List SimilarCase)
    (h : ∀ c ∈ cases, 0 ≤ c.similarity_score ∧ c.similarity_score ≤ 1) :
    0 ≤ calculate_confidence cases ∧ calculate_confidence cases ≤ 6/5 := by
  obtain ⟨hw, hs0, hs⟩ := sum_bounds cases h
  rw [calculate_confidence_eq]
  rcases cases with _ | ⟨c, rest⟩
  · norm_num
  · simp only [List.isEmpty_cons, Bool.false_eq_true, if_false]
    by_cases hpos : 0 < simSum (c :: rest)
    · rw [if_pos hpos]
      exact ⟨div_nonneg hs0 (le_of_lt hpos), (div_le_iff₀ hpos).mpr (by linarith)⟩
    · rw [if_neg hpos]; norm_num

/-- C5 witness: the amended bound applied at a concrete two-case list with
similarities in `[0, 1]`. -/
theorem c5_confidence_bounds_witness :
    0 ≤ calculate_confidence
        [{ similarity_score := 1/2, resolved := true },
         { similarity_score := 3/4, resolved := false }] ∧
    calculate_confidence
        [{ similarity_score := 1/2, resolved := true },
         { similarity_score := 3/4, resolved := false }] ≤ 6/5 :=
  c5_confidence_bounds_amended _ (by
    intro c hc
    simp only [List.mem_cons, List.mem_singleton] at hc
    rcases hc with rfl | rfl | h
    · norm_num
    · norm_num
    · cases h)

/-! ### Claim C10: division-safety of the confidence computation -/

/-- C10: for every non-empty case list whose similarity sum is not
strictly positive, `_calculate_confidence` returns `0.0` instead of
dividing by the zero or negative weight sum — the division is guarded by
`weight_sum > 0`. -/
theorem c10_confidence_division_guard (cases : List SimilarCase)
    (hne : cases ≠ []) (hle : simSum cases ≤ 0) :
    calculate_confidence cases = 0 := by
  rw [calculate_confidence_eq]
  rcases cases with _ | ⟨c, rest⟩
  · simp at hne
  · simp only [List.isEmpty_cons, Bool.false_eq_true, if_false]
    rw [if_neg (by linarith)]

/-- C10 witness: the guard theorem applied at the concrete all-zero
one-case list. -/
theorem c10_confidence_division_guard_witness :
    calculate_confidence [{ similarity_score := 0, resolved := false }] = 0 :=
  c10_confidence_division_guard [{ similarity_score := 0, resolved := false }]
    (by simp) (by unfold simSum; norm_num)

/-! ### String lemmas -/

theorem listContains_append_right (xs ys pat : List Char)
    (h : listContains ys pat = true) : listContains (xs ++ ys) pat = true := by
  induction xs with
  | nil => simpa using h
  | cons c t ih =>
      simp only [List.cons_append, listContains, Bool.or_eq_true]
      exact Or.inr ih

theorem strData_append (a b : String) : (a ++ b).data = a.data ++ b.data := rfl

theorem strContains_append_right (a b pat : String)
    (h : strContains b pat = true) : strContains (a ++ b) pat = true := by
  unfold strContains at *
  rw [strData_append]
  exact listContains_append_right _ _ _ h

theorem joinSpace_cons (s : String) (l : List String) :
    joinSpace (s :: l) = if l.isEmpty then s else s ++ " " ++ joinSpace l := by
  cases l <;> rfl

theorem strContains_joinSpace_last (ws : List String) (w pat : String)
    (h : strContains w pat = true) :
    strContains (joinSpace (ws ++ [w])) pat = true := by
  induction ws with
  | nil => simpa [joinSpace] using h
  | cons s t ih =>
      rw [List.cons_append, joinSpace_cons]
      have hne : (t ++ [w]).isEmpty = false := by
        cases t <;> rfl
      rw [hne]
      simp only [Bool.false_eq_true, if_false]
      exact strContains_append_right _ _ _ ih

theorem lastN_append_one (n : Nat) (xs : List α) (x : α) :
    lastN (n + 1) (xs ++ [x]) = lastN n xs ++ [x] := by
  unfold lastN
  rw [List.length_append, List.length_singleton]
  rw [show xs.length + 1 - (n + 1) = xs.length - n from by omega]
  exact List.drop_append_of_le_length (by omega)

/-! ### Claim C2: resolution detector -/

/-- C2, counterexample: the claim says a conversation with exactly one
message containing "thank you" is NOT resolved (≥2 messages required).
`CallCenterRAG._detect_resolution` has no minimum-length check and
classifies it resolved. -/
theorem c2_resolution_detector_counterexample :
    rag_detect_resolution
      [{ text := "ok thank you", user_type := "customer", timestamp := 0
         message_number := 1 }] = true := by decide

/-- C2 (amended): both detectors decide from the lowercased concatenation
of the last 3 messages' texts, true iff some keyword from their own list
occurs as a substring; the unified agent's detector additionally returns
`false` for conversations with fewer than 2 messages — so there a
single-message "thank you" conversation is not resolved — while the RAG
handler's detector has no minimum and classifies it resolved; both return
`true` whenever the last message is "thanks, that fixed it!" (with ≥2
messages for the unified one). -/
theorem c2_resolution_detector_amended :
    (∀ msgs : List Msg, rag_detect_resolution msgs = true ↔
      ∃ kw ∈ rag_resolution_indicators,
        strContains (joinSpace ((lastN 3 msgs).map (fun m => pyLower m.text))) kw = true) ∧
    (∀ msgs : List Msg, msgs.length < 2 → unified_detect_resolution msgs = false) ∧
    (rag_detect_resolution
        [{ text := "thank you", user_type := "customer", timestamp := 0
           message_number := 1 }] = true ∧
      unified_detect_resolution
        [{ text := "thank you", user_type := "customer", timestamp := 0
           message_number := 1 }] = false) ∧
    (∀ (msgs : List Msg) (m : Msg), m.text = "thanks, that fixed it!" →
      rag_detect_resolution (msgs ++ [m]) = true ∧
      (msgs ≠ [] → unified_detect_resolution (msgs ++ [m]) = true)) := by
  refine ⟨?_, ?_, by constructor <;> decide, ?_⟩
  · intro msgs
    simp [rag_detect_resolution, List.any_eq_true]
  · intro msgs h
    unfold unified_detect_resolution
    rw [if_pos h]
  · intro msgs m hm
    have hlast : lastN 3 (msgs ++ [m]) = lastN 2 msgs ++ [m] := lastN_append_one 2 msgs m
    have hjoin : strContains
        (joinSpace ((lastN 3 (msgs ++ [m])).map (fun x => pyLower x.text))) "thanks" = true := by
      rw [hlast, List.map_append, List.map_singleton]
      exact strContains_joinSpace_last _ _ _ (by rw [hm]; decide)
    constructor
    · unfold rag_detect_resolution
      rw [List.any_eq_true]
      exact ⟨ "thanks", by decide, hjoin⟩
    · intro hne
      unfold unified_detect_resolution
      rw [if_neg (by
        rw [List.length_append, List.length_singleton]
        have := List.length_pos.mpr hne
        omega)]
      rw [List.any_eq_true]
      exact ⟨ "thanks", by decide, hjoin⟩

/-- C2 witness: the amended theorem applied to a concrete one-message
conversation (unified: not resolved) and a concrete two-message
conversation ending in "thanks, that fixed it!" (both: resolved). -/
theorem c2_resolution_detector_witness :
    unified_detect_resolution
      [{ text := "hi", user_type := "agent", timestamp := 0, message_number := 1 }] = false ∧
    rag_detect_resolution
      ([{ text := "hi", user_type := "agent", timestamp := 0, message_number := 1 }] ++
        [{ text := "thanks, that fixed it!", user_type := "customer", timestamp := 5
           message_number := 2 }]) = true ∧
    unified_detect_resolution
      ([{ text := "hi", user_type := "agent", timestamp := 0, message_number := 1 }] ++
        [{ text := "thanks, that fixed it!", user_type := "customer", timestamp := 5
           message_number := 2 }]) = true := by
  have h := c2_resolution_detector_amended
  exact ⟨h.2.1 _ (by decide),
    (h.2.2.2 _ _ rfl).1,
    (h.2.2.2 _ _ rfl).2 (by simp)⟩

/-! ### Claim C6: issue classifier -/

theorem find?_append_of_all_neg {α : Type} {p : α → Bool} (pre l : List α)
    (h : ∀ x ∈ pre, p x = false) :
    List.find? p (pre ++ l) = List.find? p l := by
  induction pre with
  | nil => rfl
  | cons a t ih =>
      rw [List.cons_append,
        List.find?_cons_of_neg _ (by simp [h a (List.mem_cons_self a t)]),
        ih (fun x hx => h x (List.mem_cons_of_mem a hx))]

/-- C6: the classifier is a pure function of the text; it tests the
categories in the fixed order of `unified_issue_categories` and returns
the first whose keyword set has a substring match (and `rag_categorize`
does the same over its own table); with no match anywhere it returns
"other"; text containing both "bill" and "not working" classifies as
`billing` for both tables. -/
theorem c6_classifier_first_match :
    (∀ (text : String) (pre post : List (String × List String))
        (c : String) (kws : List String),
      unified_issue_categories = pre ++ (c, kws) :: post →
      (∀ p ∈ pre, p.2.any (fun kw => strContains (pyLower text) kw) = false) →
      kws.any (fun kw => strContains (pyLower text) kw) = true →
      detect_issue_category text = c) ∧
    (∀ text : String,
      (∀ ck ∈ unified_issue_categories,
        ck.2.any (fun kw => strContains (pyLower text) kw) = false) →
      detect_issue_category text = "other") ∧
    detect_issue_category "my bill is not working" = "billing" ∧
    rag_categorize "my bill is not working" = "billing" := by
  refine ⟨?_, ?_, by decide, by decide⟩
  · intro text pre post c kws htab hpre hmatch
    unfold detect_issue_category firstMatchCategory
    rw [htab, find?_append_of_all_neg _ _ hpre,
      List.find?_cons_of_pos _ (by simpa using hmatch)]
  · intro text hnone
    unfold detect_issue_category firstMatchCategory
    rw [List.find?_eq_none.mpr (fun x hx => by simp [hnone x hx])]

/-- C6 witness: the first-match rule applied at the concrete decomposition
of the table around `technical`, on a text matching both `technical` and
the later `account` category, and the default rule on a no-keyword text. -/
theorem c6_classifier_first_match_witness :
    detect_issue_category "my account is broken" = "technical" ∧
    detect_issue_category "good morning" = "other" := by
  have h := c6_classifier_first_match
  refine ⟨h.1 "my account is broken"
      [( "billing", [ "bill", "charge", "payment", "cost", "fee" ])]
      [( "account", [ "account", "login", "password", "access" ]),
       ( "service", [ "cancel", "upgrade", "plan", "change" ]),
       ( "roaming", [ "roaming", "overseas", "international" ]),
       ( "data", [ "data", "internet", "wifi", "slow" ])]
      "technical" [ "not working", "broken", "problem", "error" ]
      (by decide) (by decide) (by decide),
    h.2.1 "good morning" (by decide)⟩

/-! ### Claim C3: snapshot load with missing index artifact -/

/-- The fresh (just-constructed) knowledge-base state: no index. -/
def freshState : KBState :=
  { ml_ready := true
    conversation_index := none
    conversation_metadata := []
    issue_patterns := []
    resolution_templates := [] }

/-- A one-conversation metadata record used in the C3 scenario. -/
def c3meta : ConvMeta :=
  { contact_id := "c1", resolved := true, duration := 60, full_conversation := [] }

/-- A structured snapshot with one billing pattern and one metadata row. -/
def c3snap : SnapshotData :=
  { issue_patterns :=
      [( "billing",
         [{ contact_id := "c1", issue_text := "my bill is wrong"
            resolved := true, duration := 60 }])]
    resolution_templates := []
    conversation_metadata := [c3meta] }

/-- C3, counterexample: on a fresh instance (no index), loading a snapshot
whose structured half is present but whose companion faiss index file is
absent SUCCEEDS — the `os.path.exists` guard just skips the index — leaving
metadata loaded and `conversation_index = none`, exactly the state the
claim says the system never reaches. -/
theorem c3_load_missing_index_counterexample :
    load_knowledge_base freshState (some c3snap) none =
      .ok { freshState with
              issue_patterns := c3snap.issue_patterns
              conversation_metadata := [c3meta] } ∧
    ({ freshState with
         issue_patterns := c3snap.issue_patterns
         conversation_metadata := [c3meta] } : KBState).conversation_index = none ∧
    c3snap.conversation_metadata ≠ [] :=
  ⟨rfl, rfl, by decide⟩

/-- C3 (amended): `load_knowledge_base` is fatal only when the structured
(pickle) snapshot itself is missing; when it is present and the companion
vector-index artifact is missing, the load succeeds, installing the
structured data and leaving `conversation_index` at its previous value
(typically `none`) — the system does proceed with metadata but no matching
index. -/
theorem c3_load_missing_index_amended (st : KBState) (snap : SnapshotData)
    (idx : Option (List (List ℚ))) :
    load_knowledge_base st (some snap) none =
      .ok { st with issue_patterns := snap.issue_patterns
                    resolution_templates := snap.resolution_templates
                    conversation_metadata := snap.conversation_metadata } ∧
    load_knowledge_base st none idx = .error "FileNotFoundError" :=
  ⟨rfl, rfl⟩

/-! ### Claim C8: queries against an unbuilt or empty index -/

theorem faissSearch_nil (q : List ℚ) (k : Nat) :
    faissSearch [] q k = List.replicate k ((0 : ℚ), (-1 : Int)) := by
  simp [faissSearch]

/-- C8: `find_similar_conversations` (both implementations) returns the
empty list — and, being a total function in this model, raises nothing —
for every query and every `k` when the index is unbuilt (`none`) or was
built with zero entries. -/
theorem c8_empty_index_returns_empty (embed : String → List ℚ) (st : KBState)
    (query : String) (k : Nat) :
    (st.conversation_index = none →
      (rag_find_similar embed st query k).2 = [] ∧
      (unified_find_similar embed st query k).2 = []) ∧
    (st.conversation_index = some [] →
      (rag_find_similar embed st query k).2 = [] ∧
      (unified_find_similar embed st query k).2 = []) := by
  obtain ⟨ml, ci, md, ip, rt⟩ := st
  constructor
  · intro h
    simp only [] at h
    subst h
    cases ml <;> simp [rag_find_similar, unified_find_similar]
  · intro h
    simp only [] at h
    subst h
    have hmem : ∀ p ∈ (List.replicate k ((0 : ℚ), (-1 : Int))).enum,
        p.2 = ((0 : ℚ), (-1 : Int)) := by
      intro p hp
      rw [List.enum_eq_zip_range] at hp
      exact List.eq_of_mem_replicate (List.of_mem_zip hp).2
    constructor
    · simp only [rag_find_similar, faissSearch_nil]
      rw [List.filterMap_eq_nil_iff]
      intro p hp
      rw [hmem p hp]
      rfl
    · cases ml
      · rfl
      · simp only [unified_find_similar, faissSearch_nil]
        rw [List.filterMap_eq_nil_iff]
        intro si hsi
        rw [List.eq_of_mem_replicate hsi]
        rfl

/-- C8 witness: the theorem applied to a concrete never-built state and a
concrete zero-entry state, with the end-to-end scenario's query. -/
theorem c8_empty_index_returns_empty_witness :
    (rag_find_similar (fun _ => [1])
      { ml_ready := true, conversation_index := none, conversation_metadata := []
        issue_patterns := [], resolution_templates := [] }
      "I cannot access my account" 5).2 = [] ∧
    (unified_find_similar (fun _ => [1])
      { ml_ready := true, conversation_index := some [], conversation_metadata := []
        issue_patterns := [], resolution_templates := [] }
      "I cannot access my account" 5).2 = [] := by
  refine ⟨?_, ?_⟩
  · exact ((c8_empty_index_returns_empty (fun _ => [1]) _ "I cannot access my account" 5).1 rfl).1
  · exact ((c8_empty_index_returns_empty (fun _ => [1]) _ "I cannot access my account" 5).2 rfl).2

/-! ### Claim C9: query operations and knowledge-base state -/

theorem rag_find_similar_state (embed : String → List ℚ) (st : KBState)
    (query : String) (k : Nat) : (rag_find_similar embed st query k).1 = st := by
  unfold rag_find_similar
  rcases h : st.conversation_index with _ | rows <;> simp

theorem unified_find_similar_state (embed : String → List ℚ) (st : KBState)
    (query : String) (k : Nat) : (unified_find_similar embed st query k).1 = st := by
  unfold unified_find_similar
  rcases hm : st.ml_ready with _ | _ <;> rcases h : st.conversation_index with _ | rows <;> simp

/-- A built knowledge-base state with one indexed billing conversation. -/
def builtState : KBState :=
  { ml_ready := true
    conversation_index := some [[1]]
    conversation_metadata :=
      [{ contact_id := "c1", resolved := true, duration := 60
         full_conversation := [{ text := "my bill is wrong", user_type := "customer"
                                 timestamp := 0, message_number := 1 }] }]
    issue_patterns :=
      [( "billing",
         [{ contact_id := "c1", issue_text := "my bill is wrong"
            resolved := true, duration := 60 }])]
    resolution_templates := [] }

/-- C9, counterexample: after a build, `UnifiedCallCenterAI.get_issue_insights`
invoked with a category that has no recorded cases ("roaming") mutates the
knowledge base: the `defaultdict` subscript inserts an empty entry for that
category into `issue_patterns`, so the state after the query differs from
the state before it. -/
theorem c9_readonly_counterexample :
    (unified_get_issue_insights builtState (some "roaming")).1 ≠ builtState := by
  decide

/-- C9 (amended): every facade query leaves the knowledge-base state
unchanged — `find_similar_conversations` (both), `get_resolution_suggestions`
(both), `CallCenterRAG.get_issue_insights`, and
`UnifiedCallCenterAI.get_issue_insights` with no category or a recorded
category — EXCEPT `UnifiedCallCenterAI.get_issue_insights` on an
unrecorded category, which appends an empty `issue_patterns` entry for it
(the counterexample). -/
theorem c9_readonly_amended (embed : String → List ℚ) (st : KBState)
    (query issue_text : String) (k : Nat) (cat : Option String) :
    (rag_find_similar embed st query k).1 = st ∧
    (unified_find_similar embed st query k).1 = st ∧
    (rag_get_issue_insights st cat).1 = st ∧
    (rag_get_resolution_suggestions embed st issue_text cat).1 = st ∧
    (unified_get_resolution_suggestions embed st issue_text cat).1 = st ∧
    (unified_get_issue_insights st none).1 = st ∧
    (∀ c ps, alookup st.issue_patterns c = some ps →
      (unified_get_issue_insights st (some c)).1 = st) := by
  refine ⟨rag_find_similar_state embed st query k,
    unified_find_similar_state embed st query k, ?_, ?_, ?_, rfl, ?_⟩
  · unfold rag_get_issue_insights
    rcases cat with _ | c
    · rfl
    · rcases h : alookup st.issue_patterns c with _ | ps <;> simp [h]
  · unfold rag_get_resolution_suggestions
    simp [rag_find_similar_state]
  · unfold unified_get_resolution_suggestions
    simp [unified_find_similar_state]
  · intro c ps h
    unfold unified_get_issue_insights
    simp [h]

/-- C9 witness: the amended frame property applied at the concrete built
state, with a recorded category ("billing") for the unified insights. -/
theorem c9_readonly_amended_witness :
    (rag_find_similar (fun _ => [1]) builtState "billing problem" 5).1 = builtState ∧
    (unified_get_issue_insights builtState (some "billing")).1 = builtState := by
  have h := c9_readonly_amended (fun _ => [1]) builtState "billing problem"
    "billing problem" 5 (some "billing")
  exact ⟨h.1, h.2.2.2.2.2.2 "billing" _ rfl⟩

/-! ### Grouper lemmas (claims C1 and C7) -/

/-- The message-dict entry a raw record contributes (for a record whose
`chat_user_type` was read successfully, `getD` is that value). -/
def toMsg (m : RawMsg) : Msg :=
  { text := m.chat_text, user_type := m.chat_user_type.getD ""
    timestamp := m.chat_time_shift, message_number := m.message_number }

/-- Replay a block of raw records into one conversation. -/
def appendRaw (c : Conversation) (ms : List RawMsg) : Conversation :=
  ms.foldl (fun c m => addMessage c m (m.chat_user_type.getD "")) c

/-- The sub-list of records for one contact, in input order. -/
def filterCid (chat_data : List RawMsg) (cid : String) : List RawMsg :=
  chat_data.filter (fun m => m.contact_id == some cid)

theorem alookup_updateConv_self (cs : List (String × Conversation)) (cid : String)
    (f : Conversation → Conversation) :
    alookup (updateConv cs cid f) cid = some (f ((alookup cs cid).getD emptyConv)) := by
  induction cs with
  | nil => simp [updateConv, alookup]
  | cons p t ih =>
      obtain ⟨k, c⟩ := p
      by_cases hk : k = cid
      · subst hk
        simp [updateConv, alookup]
      · simp [updateConv, alookup, hk, ih]

theorem alookup_updateConv_ne (cs : List (String × Conversation)) (cid cid' : String)
    (f : Conversation → Conversation) (h : cid' ≠ cid) :
    alookup (updateConv cs cid f) cid' = alookup cs cid' := by
  induction cs with
  | nil =>
      simp only [updateConv, alookup]
      rw [if_neg (Ne.symm h)]
  | cons p t ih =>
      obtain ⟨k, c⟩ := p
      by_cases hk : k = cid
      · subst hk
        simp only [updateConv, if_pos rfl, alookup]
        rw [if_neg (Ne.symm h), if_neg (Ne.symm h)]
      · simp only [updateConv, if_neg hk, alookup, ih]

theorem appendRaw_cons (c : Conversation) (m : RawMsg) (ms : List RawMsg) :
    appendRaw c (m :: ms) = appendRaw (addMessage c m (m.chat_user_type.getD "")) ms := rfl

theorem appendRaw_fields (ms : List RawMsg) : ∀ c : Conversation,
    appendRaw c ms =
      { messages := c.messages ++ ms.map toMsg
        customer_messages := c.customer_messages ++
          (ms.filter (fun m => m.chat_user_type.getD "" == "customer")).map RawMsg.chat_text
        agent_messages := c.agent_messages ++
          (ms.filter (fun m => !(m.chat_user_type.getD "" == "customer"))).map RawMsg.chat_text
        resolution_achieved := c.resolution_achieved } := by
  induction ms with
  | nil => intro c; simp [appendRaw]
  | cons m t ih =>
      intro c
      rw [appendRaw_cons, ih]
      by_cases hut : m.chat_user_type.getD "" = "customer" <;>
        simp [addMessage, toMsg, hut]

/-- What a block of raw records does to one (optional) dict entry:
nothing on an absent entry with no records; otherwise replay the records
on the existing (or fresh) conversation. -/
def extendEntry (e : Option Conversation) (ms : List RawMsg) : Option Conversation :=
  match e, ms with
  | some c, ms => some (appendRaw c ms)
  | none, [] => none
  | none, ms => some (appendRaw emptyConv ms)

theorem extendEntry_nil (e : Option Conversation) : extendEntry e [] = e := by
  cases e <;> rfl

theorem extendEntry_cons (e : Option Conversation) (m : RawMsg) (ms : List RawMsg) :
    extendEntry e (m :: ms) =
      extendEntry (some (addMessage (e.getD emptyConv) m (m.chat_user_type.getD ""))) ms := by
  cases e <;> rfl

/-- The central grouping invariant: after a successful fold, the entry for
`cid` is the replay of exactly the input records with that `contact_id`,
in input order, on top of whatever the accumulator already held. -/
theorem groupFold_alookup (rest : List RawMsg) : ∀ acc res,
    groupFold acc rest = .ok res → ∀ cid,
      alookup res cid = extendEntry (alookup acc cid) (filterCid rest cid) := by
  induction rest with
  | nil =>
      intro acc res h cid
      cases h
      rw [show filterCid [] cid = [] from rfl, extendEntry_nil]
  | cons m t ih =>
      intro acc res h cid
      unfold groupFold at h
      rcases hc : m.contact_id with _ | mcid <;> rw [hc] at h
      · exact absurd h (by simp)
      rcases hu : m.chat_user_type with _ | ut <;> rw [hu] at h
      · exact absurd h (by simp)
      have hres := ih _ res h cid
      have hgetd : m.chat_user_type.getD "" = ut := by rw [hu]; rfl
      by_cases hcid : cid = mcid
      · subst hcid
        rw [alookup_updateConv_self] at hres
        have hfilter : filterCid (m :: t) cid = m :: filterCid t cid := by
          simp [filterCid, List.filter_cons, hc]
        rw [hfilter, extendEntry_cons, hgetd, hres]
      · rw [alookup_updateConv_ne _ _ _ _ hcid] at hres
        have hfilter : filterCid (m :: t) cid = filterCid t cid := by
          simp only [filterCid, List.filter_cons, hc]
          rw [if_neg (by simp only [beq_iff_eq, Option.some.injEq]; exact Ne.symm hcid)]
        rw [hfilter]
        exact hres

theorem alookup_mapval (cs : List (String × Conversation))
    (g : Conversation → Conversation) (cid : String) :
    alookup (cs.map (fun p => (p.1, g p.2))) cid = (alookup cs cid).map g := by
  induction cs with
  | nil => rfl
  | cons p t ih =>
      obtain ⟨k, c⟩ := p
      by_cases hk : k = cid <;> simp [alookup, hk, ih]

/-! ### Claim C1: grouper output vs. message_number order -/

/-- Insertion of a record into a list sorted by `message_number`. -/
def insertByNumber (m : RawMsg) : List RawMsg → List RawMsg
  | [] => [m]
  | x :: t =>
      if m.message_number ≤ x.message_number then m :: x :: t
      else x :: insertByNumber m t

/-- Insertion sort by `message_number` ascending. -/
def sortByNumber : List RawMsg → List RawMsg
  | [] => []
  | m :: t => insertByNumber m (sortByNumber t)

/-- Modelled from the spec's words (§3 Conversation invariant / §4.1): the
messages list the claim asserts — the input records for `cid` arranged in
ascending `message_number` order — for comparison with what
`_group_conversations` actually builds. -/
def claimSortedMessages (chat_data : List RawMsg) (cid : String) : List Msg :=
  (sortByNumber (filterCid chat_data cid)).map toMsg

/-- A two-record input for contact "X" arriving in descending
`message_number` order. -/
def c1Input : List RawMsg :=
  [ { contact_id := some "X", message_number := 2, chat_text := "b"
      chat_user_type := some "customer", chat_time_shift := 5 },
    { contact_id := some "X", message_number := 1, chat_text := "a"
      chat_user_type := some "agent", chat_time_shift := 0 }]

/-- C1, counterexample: `_group_conversations` keeps messages in INPUT
order (it never sorts), so on an input whose records arrive with
`message_number` 2 before 1 the produced `messages` list is `[#2, #1]`,
not the ascending order `[#1, #2]` the claim asserts. -/
theorem c1_grouper_counterexample :
    (group_conversations c1Input).map
        (fun cs => (alookup cs "X").map Conversation.messages) =
      .ok (some
        [{ text := "b", user_type := "customer", timestamp := 5, message_number := 2 },
         { text := "a", user_type := "agent", timestamp := 0, message_number := 1 }]) ∧
    claimSortedMessages c1Input "X" =
      [{ text := "a", user_type := "agent", timestamp := 0, message_number := 1 },
       { text := "b", user_type := "customer", timestamp := 5, message_number := 2 }] ∧
    ([{ text := "b", user_type := "customer", timestamp := 5, message_number := 2 },
      { text := "a", user_type := "agent", timestamp := 0, message_number := 1 }] : List Msg) ≠
      [{ text := "a", user_type := "agent", timestamp := 0, message_number := 1 },
       { text := "b", user_type := "customer", timestamp := 5, message_number := 2 }] := by
  refine ⟨rfl, rfl, by decide⟩

/-- C1 (amended): for every input and every `contact_id` occurring in it,
the grouper produces a conversation whose `messages` are exactly the input
records with that `contact_id` in their ORIGINAL INPUT ORDER (not sorted
by `message_number`; the two coincide only when the input arrives
pre-sorted), and `customer_messages` / `agent_messages` are the in-order
sub-sequences of those texts filtered by `user_type`. -/
theorem c1_grouper_amended (chat_data : List RawMsg)
    (convs : List (String × Conversation))
    (h : group_conversations chat_data = .ok convs)
    (cid : String) (hcid : ∃ m ∈ chat_data, m.contact_id = some cid) :
    ∃ conv : Conversation,
      alookup convs cid = some conv ∧
      conv.messages = (filterCid chat_data cid).map toMsg ∧
      conv.customer_messages =
        (conv.messages.filter (fun x => x.user_type == "customer")).map Msg.text ∧
      conv.agent_messages =
        (conv.messages.filter (fun x => !(x.user_type == "customer"))).map Msg.text := by
  unfold group_conversations at h
  rcases hg : groupFold [] chat_data with e | cs0 <;> rw [hg] at h
  · exact absurd h (by simp [Except.map])
  have hconvs : convs = cs0.map (fun p => (p.1, setResolution p.2)) := by
    simpa [Except.map] using h.symm
  have hlook := groupFold_alookup chat_data [] cs0 hg cid
  obtain ⟨m, hm, hmid⟩ := hcid
  have hmem : m ∈ filterCid chat_data cid := by
    simp only [filterCid, List.mem_filter]
    exact ⟨hm, by simp [hmid]⟩
  rcases hF : filterCid chat_data cid with _ | ⟨a, F'⟩
  · rw [hF] at hmem; cases hmem
  rw [hF] at hlook
  have hentry : alookup cs0 cid = some (appendRaw emptyConv (a :: F')) := by
    rw [hlook]; rfl
  have hX : appendRaw emptyConv (a :: F') =
      { messages := (a :: F').map toMsg
        customer_messages :=
          ((a :: F').filter (fun m => m.chat_user_type.getD "" == "customer")).map
            RawMsg.chat_text
        agent_messages :=
          ((a :: F').filter (fun m => !(m.chat_user_type.getD "" == "customer"))).map
            RawMsg.chat_text
        resolution_achieved := false } := by
    rw [appendRaw_fields]
    simp [emptyConv]
  have hmsgs : (setResolution (appendRaw emptyConv (a :: F'))).messages =
      (a :: F').map toMsg := by rw [show (setResolution (appendRaw emptyConv (a :: F'))).messages
        = (appendRaw emptyConv (a :: F')).messages from rfl, hX]
  refine ⟨setResolution (appendRaw emptyConv (a :: F')), ?_, ?_, ?_, ?_⟩
  · rw [hconvs, alookup_mapval, hentry]
    rfl
  · rw [hmsgs]
  · rw [hmsgs]
    rw [show (setResolution (appendRaw emptyConv (a :: F'))).customer_messages
      = (appendRaw emptyConv (a :: F')).customer_messages from rfl, hX]
    rw [List.filter_map, List.map_map]
    rfl
  · rw [hmsgs]
    rw [show (setResolution (appendRaw emptyConv (a :: F'))).agent_messages
      = (appendRaw emptyConv (a :: F')).agent_messages from rfl, hX]
    rw [List.filter_map, List.map_map]
    rfl

/-- The one-record input of the C1 witness. -/
def c1wRec : RawMsg :=
  { contact_id := some "X", message_number := 1, chat_text := "hi"
    chat_user_type := some "customer", chat_time_shift := 0 }

/-- What `_group_conversations` builds from `[c1wRec]`. -/
def c1wConvs : List (String × Conversation) :=
  [( "X",
     { messages := [{ text := "hi", user_type := "customer", timestamp := 0
                      message_number := 1 }]
       customer_messages := [ "hi"]
       agent_messages := []
       resolution_achieved := false })]

/-- C1 witness: the amended theorem applied to the concrete one-record
input, all hypotheses discharged by computation. -/
theorem c1_grouper_amended_witness :
    ∃ conv : Conversation,
      alookup c1wConvs "X" = some conv ∧
      conv.messages = (filterCid [c1wRec] "X").map toMsg ∧
      conv.customer_messages =
        (conv.messages.filter (fun x => x.user_type == "customer")).map Msg.text ∧
      conv.agent_messages =
        (conv.messages.filter (fun x => !(x.user_type == "customer"))).map Msg.text :=
  c1_grouper_amended [c1wRec] c1wConvs rfl "X" ⟨c1wRec, List.mem_singleton.mpr rfl, rfl⟩

/-! ### Claim C7: malformed records and empty input -/

theorem groupFold_error (rest : List RawMsg) : ∀ acc,
    (∃ m ∈ rest, m.contact_id = none ∨ m.chat_user_type = none) →
    ∃ e, groupFold acc rest = .error e := by
  induction rest with
  | nil =>
      intro acc h
      obtain ⟨m, hm, _⟩ := h
      cases hm
  | cons m t ih =>
      intro acc h
      obtain ⟨x, hx, hbad⟩ := h
      rcases List.mem_cons.mp hx with rfl | hxt
      · rcases hbad with hb | hb
        · exact ⟨ "KeyError: contact_id", by unfold groupFold; rw [hb]⟩
        · rcases hc : x.contact_id with _ | cid
          · exact ⟨ "KeyError: contact_id", by unfold groupFold; rw [hc]⟩
          · exact ⟨ "KeyError: chat_user_type", by unfold groupFold; rw [hc, hb]⟩
      · rcases hc : m.contact_id with _ | cid
        · exact ⟨ "KeyError: contact_id", by unfold groupFold; rw [hc]⟩
        · rcases hu : m.chat_user_type with _ | ut
          · exact ⟨ "KeyError: chat_user_type", by unfold groupFold; rw [hc, hu]⟩
          · obtain ⟨e, he⟩ := ih (updateConv acc cid (fun c => addMessage c m ut))
              ⟨x, hxt, hbad⟩
            exact ⟨e, by unfold groupFold; rw [hc, hu]; exact he⟩

/-- A well-formed record for contact "Y". -/
def c7good : RawMsg :=
  { contact_id := some "Y", message_number := 1, chat_text := "my data is slow"
    chat_user_type := some "customer", chat_time_shift := 0 }

/-- A record with no `contact_id`. -/
def c7bad : RawMsg :=
  { contact_id := none, message_number := 2, chat_text := "hello"
    chat_user_type := some "customer", chat_time_shift := 3 }

/-- C7, counterexample: a batch containing one well-formed record followed
by a record missing `contact_id` is NOT processed with the bad record
dropped — the whole call raises `KeyError` and nothing is returned, losing
the well-formed record too. -/
theorem c7_malformed_record_counterexample :
    group_conversations [c7good, c7bad] = .error "KeyError: contact_id" := rfl

/-- C7 (amended): a record missing `contact_id` or `chat_user_type` makes
the whole grouping call raise `KeyError` — fatal to the batch, no
per-record drop-with-warning — while an empty input still yields an empty
map rather than an error. -/
theorem c7_malformed_record_amended :
    (∀ chat_data : List RawMsg,
      (∃ m ∈ chat_data, m.contact_id = none ∨ m.chat_user_type = none) →
      ∃ e, group_conversations chat_data = .error e) ∧
    group_conversations [] = .ok [] := by
  refine ⟨?_, rfl⟩
  intro chat_data h
  obtain ⟨e, he⟩ := groupFold_error chat_data [] h
  exact ⟨e, by unfold group_conversations; rw [he]; rfl⟩

/-- C7 witness: the amended theorem applied to the concrete singleton
batch containing only the malformed record. -/
theorem c7_malformed_record_amended_witness :
    ∃ e, group_conversations [c7bad] = .error e :=
  c7_malformed_record_amended.1 [c7bad]
    ⟨c7bad, List.mem_singleton.mpr rfl, Or.inl rfl⟩

end CallCenterSpec
